import Mathlib

/-!
Shallow embedding of `src/official/nlp/bert/electra_models.py`.

The file's own logic is (a) a custom loss/metric layer
(`ElectraPretrainLossAndMetricLayer`) that combines a weighted sparse
categorical cross-entropy with a rate-scaled sum of per-element sigmoid
cross-entropies and registers five metrics, and (b) three model builders
(`pretrain_model`, `squad_model`, `classifier_model`) that wire encoders,
heads and the loss layer into Keras models.

The numeric layer is embedded over ℚ on a single example: a tensor of rank 1
is a `List ℚ` (or `List ℤ` before casting), a tensor of rank 2 is a
`List (List ℚ)`.  The framework-provided pointwise primitives
(`tf.nn.sigmoid_cross_entropy_with_logits`,
`losses.weighted_sparse_categorical_crossentropy_loss`,
`tf.keras.metrics.sparse_categorical_accuracy`,
`tf.keras.metrics.binary_accuracy`) are external collaborators supplied by
the framework, so they appear as abstract function parameters bundled in
`TFPrims`; the layer's own arithmetic (casts, zip, reduce_sum, the composite
loss and the metric formulas) is embedded concretely.

The model builders perform no numeric computation: they construct a graph.
They are embedded symbolically: `Tensor` is the AST of symbolic tensors the
builders create, `KerasModel` records the named inputs and the outputs of a
`tf.keras.Model`, and each builder returns the same pair of objects the
Python function returns, following its control flow (the hub-url test, the
initializer defaulting) line by line.
-/

namespace ElectraModels

/-- Abstract framework primitives used by the loss/metric layer.  Each is an
external library function; only their call shapes matter here. -/
structure TFPrims where
  sigmoidCE : ℚ → ℚ → ℚ
  wscc : List ℤ → List (List ℚ) → List ℚ → ℚ
  sparseCatAcc : List ℤ → List (List ℚ) → List ℚ
  binaryAcc : List ℚ → List ℚ → ℚ

/-- A metric registered through `self.add_metric(value, name=..., aggregation=...)`. -/
structure Metric where
  name : String
  aggregation : String
  value : ℚ
deriving DecidableEq

/-- State of an `ElectraPretrainLossAndMetricLayer`: `__init__` stores
`vocab_size` and `discrim_rate` (both as attributes and in `self.config`,
always with the same values). -/
structure ElectraPretrainLossAndMetricLayer where
  vocab_size : ℤ
  discrim_rate : ℚ
deriving DecidableEq

/-- `tf.cast(xs, tf.float32)` applied to an integer tensor of rank 1. -/
def castF (xs : List ℤ) : List ℚ :=
  xs.map (fun x => (x : ℚ))

/-- The literal `1e-5` added to the masked-lm-accuracy denominator. -/
def epsTiny : ℚ := 1 / 100000

/-- `ElectraPretrainLossAndMetricLayer._add_metrics`: computes
`masked_lm_accuracy` and `discrim_accuracy` and registers five
mean-aggregated metrics, in the order the source calls `add_metric`. -/
def ElectraPretrainLossAndMetricLayer.add_metrics (P : TFPrims)
    (_L : ElectraPretrainLossAndMetricLayer)
    (lm_output : List (List ℚ)) (lm_labels : List ℤ) (lm_label_weights : List ℤ)
    (lm_example_loss : ℚ) (discrim_output : List ℚ) (discrim_label : List ℤ)
    (discrim_loss : ℚ) (tot_loss : ℚ) : List Metric :=
  let perPosAcc := P.sparseCatAcc lm_labels lm_output
  let numerator := (List.zipWith (fun a w => a * w) perPosAcc (castF lm_label_weights)).sum
  let denominator := (castF lm_label_weights).sum + epsTiny
  let masked_lm_accuracy := numerator / denominator
  let discrim_accuracy := P.binaryAcc (castF discrim_label) discrim_output
  [ { name := "discriminator_accuracy", aggregation := "mean", value := discrim_accuracy },
    { name := "masked_lm_accuracy", aggregation := "mean", value := masked_lm_accuracy },
    { name := "lm_example_loss", aggregation := "mean", value := lm_example_loss },
    { name := "total_loss", aggregation := "mean", value := tot_loss },
    { name := "discriminator_loss", aggregation := "mean", value := discrim_loss } ]

/-- `ElectraPretrainLossAndMetricLayer.call`: returns the composite loss and
(as the second component) the metrics `_add_metrics` registers.  Tracks the
source: cast the weights and labels to float, take the weighted sparse
categorical cross-entropy, the per-element sigmoid cross-entropy, its
`reduce_sum`, then `loss = mask_label_loss + config["discrim_rate"] * discrim_loss`. -/
def ElectraPretrainLossAndMetricLayer.call (P : TFPrims)
    (L : ElectraPretrainLossAndMetricLayer)
    (lm_output : List (List ℚ)) (lm_label_ids : List ℤ) (lm_label_weights : List ℤ)
    (discrim_output : List ℚ) (discrim_labels : List ℤ) : ℚ × List Metric :=
  let weights := castF lm_label_weights
  let mask_label_loss := P.wscc lm_label_ids lm_output weights
  let discrim_ind_loss := List.zipWith P.sigmoidCE discrim_output (castF discrim_labels)
  let discrim_loss := discrim_ind_loss.sum
  let loss := mask_label_loss + L.discrim_rate * discrim_loss
  (loss,
   ElectraPretrainLossAndMetricLayer.add_metrics P L lm_output lm_label_ids
     lm_label_weights mask_label_loss discrim_output discrim_labels
     discrim_loss loss)

/-- The fields of a `BertConfig` this file reads. -/
structure BertConfig where
  vocab_size : ℤ
  hidden_size : ℤ
  initializer_range : ℚ
  hidden_dropout_prob : ℚ
deriving DecidableEq

/-- The fields of an `ElectraConfig` this file reads. -/
structure ElectraConfig where
  generator_encoder : BertConfig
  discriminator_encoder : BertConfig
  discriminator_loss_weight : ℚ
deriving DecidableEq

/-- A Keras initializer object: either `TruncatedNormal(stddev=...)` or an
arbitrary caller-supplied initializer (opaquely identified). -/
inductive Initializer where
  | truncatedNormal (stddev : ℚ)
  | custom (id : ℕ)
deriving DecidableEq

/-- An encoder network built locally.  The only local constructor the file
uses is `bert_models.get_transformer_encoder(config, seq_length)`. -/
inductive Encoder where
  | transformer (cfg : BertConfig) (seq_length : ℤ)
deriving DecidableEq

/-- A `hub.KerasLayer(url, trainable=...)` object, loaded by reference. -/
structure HubKerasLayer where
  url : String
  trainable : Bool
deriving DecidableEq

/-- The constructor arguments of `models.ElectraPretrainer(...)`. -/
structure PretrainerCfg where
  generator_network : Encoder
  discriminator_network : Encoder
  vocab_size : ℤ
  num_classes : ℤ
  sequence_length : ℤ
  last_hidden_dim : ℤ
  num_token_predictions : ℤ
  initializer : Initializer
  output : String
deriving DecidableEq

/-- Symbolic tensors the builders create: `tf.keras.layers.Input` placeholders,
the indexed outputs of calling a hub layer on three inputs, the indexed
outputs of calling an `ElectraPretrainer` on the six named inputs, the output
of an `ElectraPretrainLossAndMetricLayer` applied to five tensors, and the
`Dropout` / `Dense` layers of the classifier's hub path. -/
inductive Tensor where
  | input (shape : ℤ) (name : String) (dtype : String)
  | hubOutput (layer : HubKerasLayer) (a b c : Tensor) (idx : ℕ)
  | pretrainerOutput (p : PretrainerCfg) (iwi im iti mlp mli mlw : Tensor) (idx : ℕ)
  | electraLoss (vocab_size : ℤ) (discrim_rate : ℚ) (t1 t2 t3 t4 t5 : Tensor)
  | dropout (rate : ℚ) (x : Tensor)
  | dense (units : ℤ) (kernel_initializer : Initializer) (name : String) (x : Tensor)
deriving DecidableEq

/-- A `tf.keras.Model(inputs=..., outputs=..., name=...)`: the inputs are a
dict of named tensors, kept in the source's insertion order. -/
structure KerasModel where
  inputs : List (String × Tensor)
  outputs : List Tensor
  name : Option String
deriving DecidableEq

/-- The kinds of network object the builders return as their second element
or pass as a head's backbone: a locally built encoder, a Keras model
wrapping a hub layer, or a raw hub layer. -/
inductive NetworkObj where
  | enc (e : Encoder)
  | model (m : KerasModel)
  | hub (h : HubKerasLayer)
deriving DecidableEq

/-- A `models.BertSpanLabeler(network=..., initializer=...)` head. -/
structure BertSpanLabeler where
  network : NetworkObj
  initializer : Initializer
deriving DecidableEq

/-- The first element `classifier_model` returns: a
`models.BertClassifier(...)` in the local path, a functional-API Keras model
in the hub path. -/
inductive ClassifierHead where
  | bertClassifier (network : NetworkObj) (num_classes : ℤ) (dropout_rate : ℚ)
      (initializer : Initializer)
  | kerasModel (m : KerasModel)
deriving DecidableEq

/-- Python truthiness test `not hub_module_url`: true for `None` and `''`. -/
def optStrFalsy : Option String → Bool
  | none => true
  | some s => s.isEmpty

/-- The initializer-defaulting idiom
`if initializer is None: initializer = TruncatedNormal(stddev=range)`. -/
def resolveInit : Option Initializer → ℚ → Initializer
  | none, r => Initializer.truncatedNormal r
  | some i, _ => i

/-- `pretrain_model(electra_config, seq_length, max_predictions_per_seq,
initializer)`: builds the six named inputs, the generator and discriminator
encoders, the `ElectraPretrainer`, and the loss layer, and returns the Keras
model together with the discriminator encoder. -/
def pretrain_model (electra_config : ElectraConfig) (seq_length : ℤ)
    (max_predictions_per_seq : ℤ) (initializer : Option Initializer) :
    KerasModel × Encoder :=
  let input_word_ids := Tensor.input seq_length ("input_word_ids") ("int32")
  let input_mask := Tensor.input seq_length ("input_mask") ("int32")
  let input_type_ids := Tensor.input seq_length ("input_type_ids") ("int32")
  let masked_lm_positions :=
    Tensor.input max_predictions_per_seq ("masked_lm_positions") ("int32")
  let masked_lm_ids :=
    Tensor.input max_predictions_per_seq ("masked_lm_ids") ("int32")
  let masked_lm_weights :=
    Tensor.input max_predictions_per_seq ("masked_lm_weights") ("int32")
  let gen_encoder := Encoder.transformer electra_config.generator_encoder seq_length
  let discrim_encoder :=
    Encoder.transformer electra_config.discriminator_encoder seq_length
  let init := resolveInit initializer electra_config.generator_encoder.initializer_range
  let pretrainer_model : PretrainerCfg :=
    { generator_network := gen_encoder
      discriminator_network := discrim_encoder
      vocab_size := electra_config.generator_encoder.vocab_size
      num_classes := 2
      sequence_length := seq_length
      last_hidden_dim := electra_config.generator_encoder.hidden_size
      num_token_predictions := max_predictions_per_seq
      initializer := init
      output := "predictions" }
  let lm_output := Tensor.pretrainerOutput pretrainer_model input_word_ids
    input_mask input_type_ids masked_lm_positions masked_lm_ids masked_lm_weights 0
  let discrim_logits := Tensor.pretrainerOutput pretrainer_model input_word_ids
    input_mask input_type_ids masked_lm_positions masked_lm_ids masked_lm_weights 2
  let discrim_labels := Tensor.pretrainerOutput pretrainer_model input_word_ids
    input_mask input_type_ids masked_lm_positions masked_lm_ids masked_lm_weights 3
  let output_loss := Tensor.electraLoss
    electra_config.generator_encoder.vocab_size
    electra_config.discriminator_loss_weight
    lm_output masked_lm_ids masked_lm_weights discrim_logits discrim_labels
  ({ inputs := [(("input_word_ids"), input_word_ids),
                (("input_mask"), input_mask),
                (("input_type_ids"), input_type_ids),
                (("masked_lm_positions"), masked_lm_positions),
                (("masked_lm_ids"), masked_lm_ids),
                (("masked_lm_weights"), masked_lm_weights)]
     outputs := [output_loss]
     name := none },
   discrim_encoder)

/-- `squad_model(bert_config, max_seq_length, initializer, hub_module_url,
hub_module_trainable)`: local path builds a transformer encoder from the
config; hub path wraps a `hub.KerasLayer` in a Keras model named
`core_model` whose outputs are `[sequence_output, pooled_output]`. -/
def squad_model (bert_config : BertConfig) (max_seq_length : ℤ)
    (initializer : Option Initializer) (hub_module_url : Option String)
    (hub_module_trainable : Bool) : BertSpanLabeler × NetworkObj :=
  let init := resolveInit initializer bert_config.initializer_range
  if optStrFalsy hub_module_url then
    let bert_encoder := NetworkObj.enc (Encoder.transformer bert_config max_seq_length)
    ({ network := bert_encoder, initializer := init }, bert_encoder)
  else
    let input_word_ids := Tensor.input max_seq_length ("input_word_ids") ("int32")
    let input_mask := Tensor.input max_seq_length ("input_mask") ("int32")
    let input_type_ids := Tensor.input max_seq_length ("input_type_ids") ("int32")
    let core_model : HubKerasLayer :=
      { url := hub_module_url.getD (""), trainable := hub_module_trainable }
    let pooled_output := Tensor.hubOutput core_model input_word_ids input_mask input_type_ids 0
    let sequence_output := Tensor.hubOutput core_model input_word_ids input_mask input_type_ids 1
    let bert_encoder := NetworkObj.model
      { inputs := [(("input_word_ids"), input_word_ids),
                   (("input_mask"), input_mask),
                   (("input_type_ids"), input_type_ids)]
        outputs := [sequence_output, pooled_output]
        name := some ("core_model") }
    ({ network := bert_encoder, initializer := init }, bert_encoder)

/-- `classifier_model(bert_config, num_labels, max_seq_length,
final_layer_initializer, hub_module_url, hub_module_trainable)`: local path
builds a `BertClassifier` over a transformer encoder; hub path applies
Dropout then a Dense layer of `num_labels` units to the hub layer's pooled
output and returns the raw hub layer as the second element. -/
def classifier_model (bert_config : BertConfig) (num_labels : ℤ)
    (max_seq_length : ℤ) (final_layer_initializer : Option Initializer)
    (hub_module_url : Option String) (hub_module_trainable : Bool) :
    ClassifierHead × NetworkObj :=
  let init := resolveInit final_layer_initializer bert_config.initializer_range
  if optStrFalsy hub_module_url then
    let bert_encoder := Encoder.transformer bert_config max_seq_length
    (ClassifierHead.bertClassifier (NetworkObj.enc bert_encoder) num_labels
       bert_config.hidden_dropout_prob init,
     NetworkObj.enc bert_encoder)
  else
    let input_word_ids := Tensor.input max_seq_length ("input_word_ids") ("int32")
    let input_mask := Tensor.input max_seq_length ("input_mask") ("int32")
    let input_type_ids := Tensor.input max_seq_length ("input_type_ids") ("int32")
    let bert_model : HubKerasLayer :=
      { url := hub_module_url.getD (""), trainable := hub_module_trainable }
    let pooled_output := Tensor.hubOutput bert_model input_word_ids input_mask input_type_ids 0
    let dropped := Tensor.dropout bert_config.hidden_dropout_prob pooled_output
    let output := Tensor.dense num_labels init ("output") dropped
    (ClassifierHead.kerasModel
       { inputs := [(("input_word_ids"), input_word_ids),
                    (("input_mask"), input_mask),
                    (("input_type_ids"), input_type_ids)]
         outputs := [output]
         name := none },
     NetworkObj.hub bert_model)

/-- All locally built transformer encoders a symbolic tensor mentions. -/
def Tensor.tEncoders : Tensor → List Encoder
  | .input _ _ _ => []
  | .hubOutput _ a b c _ => a.tEncoders ++ b.tEncoders ++ c.tEncoders
  | .pretrainerOutput p a b c d e f _ =>
      p.generator_network :: p.discriminator_network ::
        (a.tEncoders ++ b.tEncoders ++ c.tEncoders ++ d.tEncoders ++
         e.tEncoders ++ f.tEncoders)
  | .electraLoss _ _ t1 t2 t3 t4 t5 =>
      t1.tEncoders ++ t2.tEncoders ++ t3.tEncoders ++ t4.tEncoders ++ t5.tEncoders
  | .dropout _ x => x.tEncoders
  | .dense _ _ _ x => x.tEncoders

/-- All hub layers a symbolic tensor mentions. -/
def Tensor.tHubs : Tensor → List HubKerasLayer
  | .input _ _ _ => []
  | .hubOutput h a b c _ => h :: (a.tHubs ++ b.tHubs ++ c.tHubs)
  | .pretrainerOutput _ a b c d e f _ =>
      a.tHubs ++ b.tHubs ++ c.tHubs ++ d.tHubs ++ e.tHubs ++ f.tHubs
  | .electraLoss _ _ t1 t2 t3 t4 t5 =>
      t1.tHubs ++ t2.tHubs ++ t3.tHubs ++ t4.tHubs ++ t5.tHubs
  | .dropout _ x => x.tHubs
  | .dense _ _ _ x => x.tHubs

/-- Encoders mentioned by a Keras model's outputs. -/
def KerasModel.tEncoders (m : KerasModel) : List Encoder :=
  m.outputs.flatMap Tensor.tEncoders

/-- Hub layers mentioned by a Keras model's outputs. -/
def KerasModel.tHubs (m : KerasModel) : List HubKerasLayer :=
  m.outputs.flatMap Tensor.tHubs

/-- Encoders mentioned by a network object. -/
def NetworkObj.tEncoders : NetworkObj → List Encoder
  | .enc e => [e]
  | .model m => m.tEncoders
  | .hub _ => []

/-- Hub layers mentioned by a network object. -/
def NetworkObj.tHubs : NetworkObj → List HubKerasLayer
  | .enc _ => []
  | .model m => m.tHubs
  | .hub h => [h]

/-- Encoders mentioned anywhere in a `squad_model` result. -/
def squadEncoders (r : BertSpanLabeler × NetworkObj) : List Encoder :=
  r.1.network.tEncoders ++ r.2.tEncoders

/-- Hub layers mentioned anywhere in a `squad_model` result. -/
def squadHubs (r : BertSpanLabeler × NetworkObj) : List HubKerasLayer :=
  r.1.network.tHubs ++ r.2.tHubs

/-- Encoders mentioned by the first element of a `classifier_model` result. -/
def ClassifierHead.tEncoders : ClassifierHead → List Encoder
  | .bertClassifier n _ _ _ => n.tEncoders
  | .kerasModel m => m.tEncoders

/-- Hub layers mentioned by the first element of a `classifier_model` result. -/
def ClassifierHead.tHubs : ClassifierHead → List HubKerasLayer
  | .bertClassifier n _ _ _ => n.tHubs
  | .kerasModel m => m.tHubs

/-- Encoders mentioned anywhere in a `classifier_model` result. -/
def classifierEncoders (r : ClassifierHead × NetworkObj) : List Encoder :=
  r.1.tEncoders ++ r.2.tEncoders

/-- Hub layers mentioned anywhere in a `classifier_model` result. -/
def classifierHubs (r : ClassifierHead × NetworkObj) : List HubKerasLayer :=
  r.1.tHubs ++ r.2.tHubs

/-- All initializer objects a symbolic tensor mentions (the `ElectraPretrainer`
constructor argument and the Dense layer's kernel initializer). -/
def Tensor.inits : Tensor → List Initializer
  | .input _ _ _ => []
  | .hubOutput _ a b c _ => a.inits ++ b.inits ++ c.inits
  | .pretrainerOutput p a b c d e f _ =>
      p.initializer ::
        (a.inits ++ b.inits ++ c.inits ++ d.inits ++ e.inits ++ f.inits)
  | .electraLoss _ _ t1 t2 t3 t4 t5 =>
      t1.inits ++ t2.inits ++ t3.inits ++ t4.inits ++ t5.inits
  | .dropout _ x => x.inits
  | .dense _ k _ x => k :: x.inits

/-- Initializers mentioned by a Keras model's outputs. -/
def KerasModel.inits (m : KerasModel) : List Initializer :=
  m.outputs.flatMap Tensor.inits

/-- Initializers mentioned by the first element of a `classifier_model` result. -/
def ClassifierHead.inits : ClassifierHead → List Initializer
  | .bertClassifier _ _ _ i => [i]
  | .kerasModel m => m.inits

/-- The `ElectraPretrainer` configuration `pretrain_model` constructs
(read off the constructor call in the source). -/
def pretrainerHeadCfg (ec : ElectraConfig) (sl mp : ℤ)
    (init : Option Initializer) : PretrainerCfg :=
  { generator_network := Encoder.transformer ec.generator_encoder sl
    discriminator_network := Encoder.transformer ec.discriminator_encoder sl
    vocab_size := ec.generator_encoder.vocab_size
    num_classes := 2
    sequence_length := sl
    last_hidden_dim := ec.generator_encoder.hidden_size
    num_token_predictions := mp
    initializer := resolveInit init ec.generator_encoder.initializer_range
    output := "predictions" }

/-- The `idx`-th output of the `ElectraPretrainer` call inside
`pretrain_model`, applied to the six named inputs. -/
def pretrainerHeadOut (ec : ElectraConfig) (sl mp : ℤ)
    (init : Option Initializer) (idx : ℕ) : Tensor :=
  Tensor.pretrainerOutput (pretrainerHeadCfg ec sl mp init)
    (Tensor.input sl ("input_word_ids") ("int32"))
    (Tensor.input sl ("input_mask") ("int32"))
    (Tensor.input sl ("input_type_ids") ("int32"))
    (Tensor.input mp ("masked_lm_positions") ("int32"))
    (Tensor.input mp ("masked_lm_ids") ("int32"))
    (Tensor.input mp ("masked_lm_weights") ("int32"))
    idx

/-- A default metric for safe list indexing in theorem statements. -/
def dummyMetric : Metric :=
  { name := "", aggregation := "", value := 0 }

/-- Concrete framework primitives for witness instantiations (any choice of
pointwise functions is admissible, since the layer treats them abstractly). -/
def Prims0 : TFPrims :=
  { sigmoidCE := fun x z => x - x * z
    wscc := fun _ p w => (p.map List.sum).sum + w.sum
    sparseCatAcc := fun _ o => o.map List.sum
    binaryAcc := fun a b => (List.zipWith (fun x y => x * y) a b).sum }

/-- A concrete loss layer for witnesses. -/
def L0 : ElectraPretrainLossAndMetricLayer :=
  { vocab_size := 30522, discrim_rate := 50 }

/-- A concrete `BertConfig` for witnesses. -/
def bc0 : BertConfig :=
  { vocab_size := 30522, hidden_size := 768,
    initializer_range := 1 / 50, hidden_dropout_prob := 1 / 10 }

/-- A concrete generator config, distinct from `bc0`, for witnesses. -/
def bc1 : BertConfig :=
  { vocab_size := 30522, hidden_size := 256,
    initializer_range := 1 / 50, hidden_dropout_prob := 1 / 10 }

/-- A concrete `ElectraConfig` with distinct generator and discriminator
configs, for witnesses. -/
def ec0 : ElectraConfig :=
  { generator_encoder := bc1, discriminator_encoder := bc0,
    discriminator_loss_weight := 50 }

/-- C1: for every input, `ElectraPretrainLossAndMetricLayer.call` returns
exactly the weighted sparse categorical cross-entropy of the lm labels and
lm output (with the cast weights) plus `discrim_rate` times the sum over all
positions of the per-element sigmoid cross-entropy of the discriminator
output against the discriminator labels. -/
theorem electra_call_loss (P : TFPrims) (L : ElectraPretrainLossAndMetricLayer)
    (lm_output : List (List ℚ)) (lm_label_ids lm_label_weights : List ℤ)
    (discrim_output : List ℚ) (discrim_labels : List ℤ) :
    (L.call P lm_output lm_label_ids lm_label_weights discrim_output discrim_labels).1 =
      P.wscc lm_label_ids lm_output (castF lm_label_weights)
        + L.discrim_rate *
            (List.zipWith P.sigmoidCE discrim_output (castF discrim_labels)).sum :=
  rfl

/-- C6: every call registers exactly five mean-aggregated metrics, named
`discriminator_accuracy`, `masked_lm_accuracy`, `lm_example_loss`,
`total_loss`, `discriminator_loss`, in that order; the `total_loss` metric
carries the very value the layer returns, and the `discriminator_loss`
metric carries the unscaled sigmoid-cross-entropy sum (before the
`discrim_rate` factor). -/
theorem electra_call_metrics (P : TFPrims) (L : ElectraPretrainLossAndMetricLayer)
    (lm_output : List (List ℚ)) (lm_label_ids lm_label_weights : List ℤ)
    (discrim_output : List ℚ) (discrim_labels : List ℤ) :
    ((L.call P lm_output lm_label_ids lm_label_weights discrim_output discrim_labels).2.map
        (fun m => (m.name, m.aggregation)) =
      [(("discriminator_accuracy"), ("mean")), (("masked_lm_accuracy"), ("mean")),
       (("lm_example_loss"), ("mean")), (("total_loss"), ("mean")),
       (("discriminator_loss"), ("mean"))])
    ∧ ((L.call P lm_output lm_label_ids lm_label_weights discrim_output
          discrim_labels).2.getD 3 dummyMetric).value =
        (L.call P lm_output lm_label_ids lm_label_weights discrim_output
          discrim_labels).1
    ∧ ((L.call P lm_output lm_label_ids lm_label_weights discrim_output
          discrim_labels).2.getD 4 dummyMetric).value =
        (List.zipWith P.sigmoidCE discrim_output (castF discrim_labels)).sum :=
  ⟨rfl, rfl, rfl⟩

/-- C8: `vocab_size` has no effect on the layer's observable behaviour: two
layers that agree on `discrim_rate` (differing only in `vocab_size`) return
the same loss and register the same metric values on every input. -/
theorem electra_vocab_size_independent (P : TFPrims)
    (L1 L2 : ElectraPretrainLossAndMetricLayer)
    (h : L1.discrim_rate = L2.discrim_rate)
    (lm_output : List (List ℚ)) (lm_label_ids lm_label_weights : List ℤ)
    (discrim_output : List ℚ) (discrim_labels : List ℤ) :
    L1.call P lm_output lm_label_ids lm_label_weights discrim_output discrim_labels =
      L2.call P lm_output lm_label_ids lm_label_weights discrim_output discrim_labels := by
  simp only [ElectraPretrainLossAndMetricLayer.call,
    ElectraPretrainLossAndMetricLayer.add_metrics, h]

/-- Witness for C8: two concrete layers differing only in `vocab_size`
produce identical results on a concrete input. -/
theorem electra_vocab_size_independent_witness :
    ({ vocab_size := 5, discrim_rate := 50 } :
        ElectraPretrainLossAndMetricLayer).call Prims0 [[1]] [0] [1, 0, 2] [1] [0] =
      ({ vocab_size := 7, discrim_rate := 50 } :
        ElectraPretrainLossAndMetricLayer).call Prims0 [[1]] [0] [1, 0, 2] [1] [0] :=
  electra_vocab_size_independent Prims0 _ _ rfl [[1]] [0] [1, 0, 2] [1] [0]

/-- C2: the `masked_lm_accuracy` metric equals the weight-multiplied sum of
the per-position sparse categorical accuracies divided by
`sum(lm_label_weights) + 1e-5`, and for non-negative weights that
denominator is strictly positive, so the division never divides by zero. -/
theorem electra_masked_lm_accuracy (P : TFPrims)
    (L : ElectraPretrainLossAndMetricLayer)
    (lm_output : List (List ℚ)) (lm_label_ids lm_label_weights : List ℤ)
    (discrim_output : List ℚ) (discrim_labels : List ℤ)
    (h : ∀ w ∈ lm_label_weights, (0 : ℤ) ≤ w) :
    ((L.call P lm_output lm_label_ids lm_label_weights discrim_output
        discrim_labels).2.getD 1 dummyMetric) =
      { name := "masked_lm_accuracy", aggregation := "mean",
        value :=
          (List.zipWith (fun a w => a * w) (P.sparseCatAcc lm_label_ids lm_output)
              (castF lm_label_weights)).sum
            / ((castF lm_label_weights).sum + epsTiny) }
    ∧ 0 < (castF lm_label_weights).sum + epsTiny := by
  refine ⟨rfl, ?_⟩
  have h0 : ∀ l : List ℤ, (∀ w ∈ l, (0 : ℤ) ≤ w) → (0 : ℚ) ≤ (castF l).sum := by
    intro l
    induction l with
    | nil => intro _; simp [castF]
    | cons a t ih =>
        intro hl
        have ha : (0 : ℚ) ≤ (a : ℚ) := by
          exact_mod_cast hl a (List.mem_cons_self a t)
        have ht : (0 : ℚ) ≤ (castF t).sum :=
          ih (fun w hw => hl w (List.mem_cons_of_mem a hw))
        simpa [castF] using add_nonneg ha ht
  have h1 : (0 : ℚ) < epsTiny := by norm_num [epsTiny]
  have := h0 lm_label_weights h
  linarith

/-- Witness for C2 at a concrete non-negative weight vector. -/
theorem electra_masked_lm_accuracy_witness :
    (∀ w ∈ ([1, 0, 2] : List ℤ), (0 : ℤ) ≤ w)
    ∧ (((L0.call Prims0 [[1]] [0] [1, 0, 2] [1] [0]).2.getD 1 dummyMetric) =
        { name := "masked_lm_accuracy", aggregation := "mean",
          value :=
            (List.zipWith (fun a w => a * w) (Prims0.sparseCatAcc [0] [[1]])
                (castF [1, 0, 2])).sum
              / ((castF [1, 0, 2]).sum + epsTiny) }
      ∧ 0 < (castF ([1, 0, 2] : List ℤ)).sum + epsTiny) :=
  ⟨by decide,
   electra_masked_lm_accuracy Prims0 L0 [[1]] [0] [1, 0, 2] [1] [0] (by decide)⟩

/-- C3: the three builders wire the three promised heads onto encoders:
`pretrain_model` feeds an `ElectraPretrainer` (with `num_classes = 2`) into
the loss layer and returns the Keras model with its discriminator encoder;
`squad_model` (local path) returns a `BertSpanLabeler` over the encoder
built from the config, together with that encoder; `classifier_model`
(local path) returns a `BertClassifier` with `num_classes = num_labels`
over the encoder built from the config, together with that encoder. -/
theorem electra_task_heads (ec : ElectraConfig) (bc : BertConfig)
    (sl mp msl nl : ℤ) (init : Option Initializer) (tr : Bool) :
    ((pretrain_model ec sl mp init).1.outputs =
        [Tensor.electraLoss ec.generator_encoder.vocab_size
           ec.discriminator_loss_weight
           (pretrainerHeadOut ec sl mp init 0)
           (Tensor.input mp ("masked_lm_ids") ("int32"))
           (Tensor.input mp ("masked_lm_weights") ("int32"))
           (pretrainerHeadOut ec sl mp init 2)
           (pretrainerHeadOut ec sl mp init 3)]
      ∧ (pretrainerHeadCfg ec sl mp init).num_classes = 2
      ∧ (pretrain_model ec sl mp init).2 =
          Encoder.transformer ec.discriminator_encoder sl)
    ∧ squad_model bc msl init none tr =
        ({ network := NetworkObj.enc (Encoder.transformer bc msl),
           initializer := resolveInit init bc.initializer_range },
         NetworkObj.enc (Encoder.transformer bc msl))
    ∧ classifier_model bc nl msl init none tr =
        (ClassifierHead.bertClassifier
           (NetworkObj.enc (Encoder.transformer bc msl)) nl
           bc.hidden_dropout_prob (resolveInit init bc.initializer_range),
         NetworkObj.enc (Encoder.transformer bc msl)) :=
  ⟨⟨rfl, rfl, rfl⟩, rfl, rfl⟩

/-- C5: the Keras model `pretrain_model` returns has as inputs exactly the
six named tensors (`input_word_ids`, `input_mask`, `input_type_ids` of
length `seq_length`; `masked_lm_positions`, `masked_lm_ids`,
`masked_lm_weights` of length `max_predictions_per_seq`), its sole output
is the loss layer applied to the pretrainer's lm output, the masked-lm ids
and weights, and the discriminator logits and labels, and the second
element of the returned pair is the discriminator encoder, not the
generator encoder. -/
theorem electra_pretrain_model_io (ec : ElectraConfig) (sl mp : ℤ)
    (init : Option Initializer)
    (hne : ec.generator_encoder ≠ ec.discriminator_encoder) :
    (pretrain_model ec sl mp init).1.inputs =
      [(("input_word_ids"), Tensor.input sl ("input_word_ids") ("int32")),
       (("input_mask"), Tensor.input sl ("input_mask") ("int32")),
       (("input_type_ids"), Tensor.input sl ("input_type_ids") ("int32")),
       (("masked_lm_positions"), Tensor.input mp ("masked_lm_positions") ("int32")),
       (("masked_lm_ids"), Tensor.input mp ("masked_lm_ids") ("int32")),
       (("masked_lm_weights"), Tensor.input mp ("masked_lm_weights") ("int32"))]
    ∧ (pretrain_model ec sl mp init).1.outputs =
        [Tensor.electraLoss ec.generator_encoder.vocab_size
           ec.discriminator_loss_weight
           (pretrainerHeadOut ec sl mp init 0)
           (Tensor.input mp ("masked_lm_ids") ("int32"))
           (Tensor.input mp ("masked_lm_weights") ("int32"))
           (pretrainerHeadOut ec sl mp init 2)
           (pretrainerHeadOut ec sl mp init 3)]
    ∧ (pretrain_model ec sl mp init).2 =
        Encoder.transformer ec.discriminator_encoder sl
    ∧ (pretrain_model ec sl mp init).2 ≠
        Encoder.transformer ec.generator_encoder sl := by
  refine ⟨rfl, rfl, rfl, ?_⟩
  intro hEq
  have h2 : Encoder.transformer ec.discriminator_encoder sl =
      Encoder.transformer ec.generator_encoder sl := hEq
  injection h2 with h3 _
  exact hne h3.symm

/-- Witness for C5 at a concrete config whose generator and discriminator
encoder configs differ. -/
theorem electra_pretrain_model_io_witness :
    (pretrain_model ec0 4 2 none).1.inputs =
      [(("input_word_ids"), Tensor.input 4 ("input_word_ids") ("int32")),
       (("input_mask"), Tensor.input 4 ("input_mask") ("int32")),
       (("input_type_ids"), Tensor.input 4 ("input_type_ids") ("int32")),
       (("masked_lm_positions"), Tensor.input 2 ("masked_lm_positions") ("int32")),
       (("masked_lm_ids"), Tensor.input 2 ("masked_lm_ids") ("int32")),
       (("masked_lm_weights"), Tensor.input 2 ("masked_lm_weights") ("int32"))]
    ∧ (pretrain_model ec0 4 2 none).1.outputs =
        [Tensor.electraLoss ec0.generator_encoder.vocab_size
           ec0.discriminator_loss_weight
           (pretrainerHeadOut ec0 4 2 none 0)
           (Tensor.input 2 ("masked_lm_ids") ("int32"))
           (Tensor.input 2 ("masked_lm_weights") ("int32"))
           (pretrainerHeadOut ec0 4 2 none 2)
           (pretrainerHeadOut ec0 4 2 none 3)]
    ∧ (pretrain_model ec0 4 2 none).2 =
        Encoder.transformer ec0.discriminator_encoder 4
    ∧ (pretrain_model ec0 4 2 none).2 ≠
        Encoder.transformer ec0.generator_encoder 4 :=
  electra_pretrain_model_io ec0 4 2 none (by decide)

/-- C7: inside `pretrain_model`, the `ElectraPretrainer` head attached to
the generator and discriminator encoders is configured with
`output = "predictions"`, `num_token_predictions = max_predictions_per_seq`
and `num_classes = 2`, and both its lm output (index 0) and its
discriminator logits (index 2) feed the downstream loss layer. -/
theorem electra_pretrainer_head (ec : ElectraConfig) (sl mp : ℤ)
    (init : Option Initializer) :
    (pretrain_model ec sl mp init).1.outputs =
      [Tensor.electraLoss ec.generator_encoder.vocab_size
         ec.discriminator_loss_weight
         (pretrainerHeadOut ec sl mp init 0)
         (Tensor.input mp ("masked_lm_ids") ("int32"))
         (Tensor.input mp ("masked_lm_weights") ("int32"))
         (pretrainerHeadOut ec sl mp init 2)
         (pretrainerHeadOut ec sl mp init 3)]
    ∧ (pretrainerHeadCfg ec sl mp init).output = "predictions"
    ∧ (pretrainerHeadCfg ec sl mp init).num_token_predictions = mp
    ∧ (pretrainerHeadCfg ec sl mp init).num_classes = 2
    ∧ (pretrainerHeadCfg ec sl mp init).generator_network =
        Encoder.transformer ec.generator_encoder sl
    ∧ (pretrainerHeadCfg ec sl mp init).discriminator_network =
        Encoder.transformer ec.discriminator_encoder sl :=
  ⟨rfl, rfl, rfl, rfl, rfl, rfl⟩

/-- C9: in each builder, an omitted (`none`) initializer defaults to
`TruncatedNormal` with stddev the relevant config's `initializer_range`
(the generator encoder's range in `pretrain_model`, `bert_config`'s range
in the other two), and an explicitly supplied initializer is used
unchanged, in every url path. -/
theorem electra_initializer_default (ec : ElectraConfig) (bc : BertConfig)
    (sl mp msl nl : ℤ) (tr : Bool) (url : Option String) (i : Initializer) :
    (pretrain_model ec sl mp none).1.inits =
        [Initializer.truncatedNormal ec.generator_encoder.initializer_range,
         Initializer.truncatedNormal ec.generator_encoder.initializer_range,
         Initializer.truncatedNormal ec.generator_encoder.initializer_range]
    ∧ (pretrain_model ec sl mp (some i)).1.inits = [i, i, i]
    ∧ (squad_model bc msl none url tr).1.initializer =
        Initializer.truncatedNormal bc.initializer_range
    ∧ (squad_model bc msl (some i) url tr).1.initializer = i
    ∧ (classifier_model bc nl msl none url tr).1.inits =
        [Initializer.truncatedNormal bc.initializer_range]
    ∧ (classifier_model bc nl msl (some i) url tr).1.inits = [i] := by
  cases hu : optStrFalsy url <;>
    simp [pretrain_model, squad_model, classifier_model, hu, resolveInit,
      KerasModel.inits, Tensor.inits, ClassifierHead.inits]

/-- C4: in `squad_model` and `classifier_model`, an empty or absent
`hub_module_url` makes the encoder a locally built
`get_transformer_encoder(bert_config, max_seq_length)` with no hub layer
anywhere, while a non-empty url makes the encoder a
`hub.KerasLayer(url, trainable=hub_module_trainable)` loaded by reference,
with no locally built encoder anywhere in the result. -/
theorem electra_hub_vs_local (bc : BertConfig) (msl nl : ℤ)
    (init : Option Initializer) (tr : Bool) (url : Option String) :
    (optStrFalsy url = true →
       squadEncoders (squad_model bc msl init url tr) =
           [Encoder.transformer bc msl, Encoder.transformer bc msl]
       ∧ squadHubs (squad_model bc msl init url tr) = []
       ∧ classifierEncoders (classifier_model bc nl msl init url tr) =
           [Encoder.transformer bc msl, Encoder.transformer bc msl]
       ∧ classifierHubs (classifier_model bc nl msl init url tr) = [])
    ∧ (∀ u : String, url = some u → u ≠ ("") →
       ({ url := u, trainable := tr } : HubKerasLayer) ∈
           squadHubs (squad_model bc msl init url tr)
       ∧ squadEncoders (squad_model bc msl init url tr) = []
       ∧ ({ url := u, trainable := tr } : HubKerasLayer) ∈
           classifierHubs (classifier_model bc nl msl init url tr)
       ∧ classifierEncoders (classifier_model bc nl msl init url tr) = []) := by
  constructor
  · intro h
    simp [squad_model, classifier_model, h, squadEncoders, squadHubs,
      classifierEncoders, classifierHubs, NetworkObj.tEncoders,
      NetworkObj.tHubs, ClassifierHead.tEncoders, ClassifierHead.tHubs,
      KerasModel.tEncoders, KerasModel.tHubs, Tensor.tEncoders, Tensor.tHubs]
  · rintro u rfl hne
    have hf : optStrFalsy (some u) = false := by
      cases he : u.isEmpty with
      | false => simp [optStrFalsy, he]
      | true => exact absurd ((String.isEmpty_iff u).mp he) hne
    simp [squad_model, classifier_model, hf, squadEncoders, squadHubs,
      classifierEncoders, classifierHubs, NetworkObj.tEncoders,
      NetworkObj.tHubs, ClassifierHead.tEncoders, ClassifierHead.tHubs,
      KerasModel.tEncoders, KerasModel.tHubs, Tensor.tEncoders, Tensor.tHubs]

/-- Witness for C4 on the hub path with a concrete non-empty url. -/
theorem electra_hub_vs_local_witness :
    ({ url := "https://tfhub.dev/bert", trainable := true } : HubKerasLayer) ∈
        squadHubs (squad_model bc0 4 none (some ("https://tfhub.dev/bert")) true)
    ∧ squadEncoders (squad_model bc0 4 none (some ("https://tfhub.dev/bert")) true) = []
    ∧ ({ url := "https://tfhub.dev/bert", trainable := true } : HubKerasLayer) ∈
        classifierHubs (classifier_model bc0 3 4 none (some ("https://tfhub.dev/bert")) true)
    ∧ classifierEncoders
        (classifier_model bc0 3 4 none (some ("https://tfhub.dev/bert")) true) = [] :=
  ((electra_hub_vs_local bc0 4 3 none true (some ("https://tfhub.dev/bert"))).2)
    ("https://tfhub.dev/bert") rfl (by decide)

/-- C10: on the hub path, `squad_model`'s second return value is a Keras
model named `core_model` whose outputs are `[sequence_output,
pooled_output]` — reversing the hub layer's `(pooled_output,
sequence_output)` call order — while `classifier_model` returns the raw
`hub.KerasLayer` itself, unwrapped, as its second return value. -/
theorem electra_hub_second_return (bc : BertConfig) (nl msl : ℤ)
    (init : Option Initializer) (tr : Bool) (u : String) (h : u ≠ ("")) :
    (squad_model bc msl init (some u) tr).2 =
      NetworkObj.model
        { inputs := [(("input_word_ids"), Tensor.input msl ("input_word_ids") ("int32")),
                     (("input_mask"), Tensor.input msl ("input_mask") ("int32")),
                     (("input_type_ids"), Tensor.input msl ("input_type_ids") ("int32"))]
          outputs := [Tensor.hubOutput { url := u, trainable := tr }
                        (Tensor.input msl ("input_word_ids") ("int32"))
                        (Tensor.input msl ("input_mask") ("int32"))
                        (Tensor.input msl ("input_type_ids") ("int32")) 1,
                      Tensor.hubOutput { url := u, trainable := tr }
                        (Tensor.input msl ("input_word_ids") ("int32"))
                        (Tensor.input msl ("input_mask") ("int32"))
                        (Tensor.input msl ("input_type_ids") ("int32")) 0]
          name := some ("core_model") }
    ∧ (classifier_model bc nl msl init (some u) tr).2 =
        NetworkObj.hub { url := u, trainable := tr } := by
  have hf : optStrFalsy (some u) = false := by
    cases he : u.isEmpty with
    | false => simp [optStrFalsy, he]
    | true => exact absurd ((String.isEmpty_iff u).mp he) h
  constructor <;> simp [squad_model, classifier_model, hf]

/-- Witness for C10 with a concrete non-empty url. -/
theorem electra_hub_second_return_witness :
    (squad_model bc0 4 none (some ("https://tfhub.dev/bert")) true).2 =
      NetworkObj.model
        { inputs := [(("input_word_ids"), Tensor.input 4 ("input_word_ids") ("int32")),
                     (("input_mask"), Tensor.input 4 ("input_mask") ("int32")),
                     (("input_type_ids"), Tensor.input 4 ("input_type_ids") ("int32"))]
          outputs := [Tensor.hubOutput { url := "https://tfhub.dev/bert", trainable := true }
                        (Tensor.input 4 ("input_word_ids") ("int32"))
                        (Tensor.input 4 ("input_mask") ("int32"))
                        (Tensor.input 4 ("input_type_ids") ("int32")) 1,
                      Tensor.hubOutput { url := "https://tfhub.dev/bert", trainable := true }
                        (Tensor.input 4 ("input_word_ids") ("int32"))
                        (Tensor.input 4 ("input_mask") ("int32"))
                        (Tensor.input 4 ("input_type_ids") ("int32")) 0]
          name := some ("core_model") }
    ∧ (classifier_model bc0 3 4 none (some ("https://tfhub.dev/bert")) true).2 =
        NetworkObj.hub { url := "https://tfhub.dev/bert", trainable := true } :=
  electra_hub_second_return bc0 3 4 none true ("https://tfhub.dev/bert") (by decide)

end ElectraModels
